import Mathlib

/-! Verification development for the esophageal-cancer treatment-recommendation
engine (`esophageal_cancer_tool.py`, with the numeric form conversion of
`app.py`).  The Python code is shallowly embedded: every definition below is a
direct functional translation of the corresponding block of the source.
Python floats are modelled by `ℚ` (the engine only ever compares them with
`>=`, which is exact for the values involved); Python's heterogeneous
biomarker dictionary values (`None`, `bool`, `float`) are modelled by `PyVal`;
character-class functions (`str.upper`, `str.isdigit`, `float(...)` parsing)
are modelled for ASCII text, which is the alphabet of every coded value the
tool uses.
-/

/-! Part: Small string/list helpers (Python `in`, `startswith`, `join`) -/

/-- Boolean list-prefix test (used to model Python's `str.startswith`). -/
def leadsWith : List Char → List Char → Bool
  | [], _ => true
  | _ :: _, [] => false
  | a :: as, b :: bs => a == b && leadsWith as bs

/-- Boolean list-infix test (used to model Python's `pat in s`). -/
def occursWithin : List Char → List Char → Bool
  | pat, [] => pat.isEmpty
  | pat, c :: rest => leadsWith pat (c :: rest) || occursWithin pat rest

/-- Python `pat in s` on strings. -/
def strContains (s pat : String) : Bool := occursWithin pat.data s.data

/-- Python `s.startswith(pre)`. -/
def strStartsWith (s pre : String) : Bool := leadsWith pre.data s.data

/-- Python `s.upper()` (ASCII). -/
def strUpper (s : String) : String := String.mk (s.data.map Char.toUpper)

/-- Python `s.lower()` (ASCII). -/
def strLower (s : String) : String := String.mk (s.data.map Char.toLower)

/-- Python `sep.join(parts)`. -/
def pyJoin (sep : String) : List String → String
  | [] => ""
  | [s] => s
  | s :: rest => s ++ sep ++ pyJoin sep rest

/-! Part: Python values and dictionaries for the biomarker mapping -/

/-- A Python biomarker dictionary value: `None`, a `bool`, or a `float`. -/
inductive PyVal where
  | noneV : PyVal
  | boolV : Bool → PyVal
  | numV : ℚ → PyVal
deriving DecidableEq

/-- Python `dict.get k`: the value of the last binding of `k` ("later keys
win", matching dict-comprehension semantics), or `none` if `k` is unbound. -/
def dget (l : List (String × PyVal)) (k : String) : Option PyVal :=
  l.foldl (fun acc kv => if kv.1 == k then some kv.2 else acc) Option.none

/-- The dict comprehension of `recommend_plan` that upper-cases all biomarker keys. -/
def upperKeys (l : List (String × PyVal)) : List (String × PyVal) :=
  l.map (fun kv => (strUpper kv.1, kv.2))

/-- Python truthiness of a `dict.get` result: a missing key and an explicit
`None` are falsy, a `bool` is itself, a number is truthy iff nonzero. -/
def pyTruthy : Option PyVal → Bool
  | Option.none => false
  | some PyVal.noneV => false
  | some (PyVal.boolV b) => b
  | some (PyVal.numV q) => q != 0

/-- The numeric view used by `pd_l1 is not None ... pd_l1 >= t`: a missing key
or an explicit `None` has no numeric value; a Python `bool` compares as 0/1. -/
def pyNumVal : Option PyVal → Option ℚ
  | some (PyVal.boolV b) => some (if b then 1 else 0)
  | some (PyVal.numV q) => some q
  | _ => Option.none

/-! Part: Data model (`PatientData` plus the extra keys `recommend_plan` reads
from the raw dictionary).  `Option` marks fields whose absence Python's
`dict.get` maps to `None`; list/string fields default to `[]`/`""` exactly as
the corresponding `patient.get(key, default)` calls do. -/

structure Patient where
  age : Option Int := Option.none
  stage : String := ""
  histology : String := ""
  tumour_size_cm : Option ℚ := Option.none
  grade : Option String := Option.none
  lymphovascular_invasion : Option Bool := Option.none
  biomarkers : List (String × PyVal) := []
  comorbidities : List String := []
  comorbidities_other : String := ""
  tumour_location : Option String := Option.none
  invasion_features : List String := []
  nodal_regions : List String := []
  distant_met_sites : List String := []
  imaging_findings : String := ""
  surgical_candidate : Option Bool := Option.none

/-- The `{"summary": ..., "details": ...}` dictionary returned by
`recommend_plan`. -/
structure RecResult where
  summary : String
  details : String
deriving DecidableEq

/-! Part: TNM parser (`parse_stage`) -/

/-- First match of the regex `c\d+[AB]?` in a character list: scan left to
right for `c` followed by at least one digit; take the maximal digit run and
an optional `A`/`B`. -/
def matchTNM (c : Char) : List Char → Option (List Char)
  | [] => Option.none
  | x :: xs =>
    if x == c && (match xs with | d :: _ => d.isDigit | [] => false) then
      some (c :: xs.takeWhile Char.isDigit ++
        (match xs.dropWhile Char.isDigit with
         | 'A' :: _ => ['A']
         | 'B' :: _ => ['B']
         | _ => []))
    else matchTNM c xs

/-- Model of `parse_stage`: parse a TNM stage string into `(T, N, M)`; each category
is the first `re.search` match of `T\d+[AB]?` etc. in the upper-cased string,
or `""` when there is no match. -/
def parse_stage (stage : String) : String × String × String :=
  let s := strUpper stage
  let g := fun c => match matchTNM c s.data with
    | some cs => String.mk cs
    | Option.none => ""
  (g 'T', g 'N', g 'M')

/-! Part: Normalized views of the raw record (lines 109–131 of the source) -/

def lowLocation (p : Patient) : String := strLower (p.tumour_location.getD "")

def lowInvasion (p : Patient) : List String := p.invasion_features.map strLower

def lowNodal (p : Patient) : List String := p.nodal_regions.map strLower

def lowDistant (p : Patient) : List String := p.distant_met_sites.map strLower

def candFlag (p : Patient) : Bool := p.surgical_candidate.getD true

def parsedT (p : Patient) : String := strUpper (parse_stage p.stage).1

def parsedN (p : Patient) : String := strUpper (parse_stage p.stage).2.1

def parsedM (p : Patient) : String := strUpper (parse_stage p.stage).2.2

/-! Part: Section 1 — metastatic vs local/regional -/

/-- The imaging-metastasis flag: any coded distant site, or a
pleural/peritoneal-carcinomatosis invasion feature. -/
def hasImagingMetOf (distant_met_sites invasion_features : List String) : Bool :=
  !distant_met_sites.isEmpty ||
    invasion_features.any
      (fun f => f == "pleural_carcinomatosis" || f == "peritoneal_carcinomatosis")

def hasImagingMet (p : Patient) : Bool :=
  hasImagingMetOf (lowDistant p) (lowInvasion p)

/-- The `distant_sites_report` list: the coded distant sites, extended by `"pleura"` /
`"peritoneal"` (each at most once) for carcinomatosis invasion features. -/
def distant_sites_report (distant_met_sites invasion_features : List String) :
    List String :=
  invasion_features.foldl
    (fun rep f =>
      let rep :=
        if f == "pleural_carcinomatosis" && !rep.contains "pleura" then
          rep ++ ["pleura"]
        else rep
      if f == "peritoneal_carcinomatosis" && !rep.contains "peritoneal" then
        rep ++ ["peritoneal"]
      else rep)
    distant_met_sites

def metOverrideSentence (sites : String) : String :=
  "Imaging demonstrates distant metastatic disease (" ++ sites ++
    "), so the disease is functionally metastatic even if TNM lists M0."

/-- Section 1 of `recommend_plan`: override a parsed `M0`/unknown to `M1`
when imaging shows metastatic disease, recording the sites in the rationale.
Returns the (possibly overridden) `M_upper` and the rationale sentences. -/
def reconcileM (M_upper : String) (distant_met_sites invasion_features : List String) :
    String × List String :=
  if hasImagingMetOf distant_met_sites invasion_features &&
      (M_upper == "" || M_upper == "M0") then
    ("M1",
     [metOverrideSentence
        (pyJoin ", " (distant_sites_report distant_met_sites invasion_features))])
  else (M_upper, [])

def stageOne (p : Patient) : String × List String :=
  reconcileM (parsedM p) (lowDistant p) (lowInvasion p)

/-- The effective M category the engine uses after imaging reconciliation. -/
def effectiveM (p : Patient) : String := (stageOne p).1

/-- Python `if M_upper and M_upper != "M0"` — the engine's metastatic test. -/
def isMetastatic (p : Patient) : Bool :=
  effectiveM p != "" && effectiveM p != "M0"

/-! Part: Sections 2–3 — resectability / surgical fitness -/

def t4b_like_flags : List String :=
  ["airway_invasion", "aortic_encasement", "vertebral_body_involvement"]

def s_t4b_tnm : String :=
  "Tumour is staged as T4b by TNM, generally unresectable and treated with definitive chemoradiation or systemic therapy."

def s_t4b_inv : String :=
  "Imaging shows invasion of critical adjacent structures (e.g., airway, aorta, vertebral body, pericardium, pleura), which is consistent with T4b and renders the tumour unresectable; definitive chemoradiation or systemic therapy is preferred."

def s_cervical : String :=
  "Primary tumour is in the cervical esophagus, where NCCN recommends definitive chemoradiation rather than esophagectomy."

def s_metastatic (M_upper : String) : String :=
  "Because the disease is metastatic (" ++ M_upper ++
    "), curative esophagectomy is not appropriate; management is systemic/palliative."

def s_comorbid : String :=
  "Significant comorbidities (e.g., severe cardiopulmonary disease, frailty, CKD, or liver disease) increase operative risk and may limit tolerance of esophagectomy."

def s_nocand : String :=
  "The patient has been assessed as not a surgical candidate; definitive chemoradiation or systemic therapy is preferred over esophagectomy."

/-- Model of sections 2–3 of `recommend_plan`: the six resectability/fitness rules in
source order.  Returns `(unresectable, high_risk_surgery, cervical_location,
details)`.  Each imperative `unresectable = True` / `details.append`
assignment becomes one sequential `let` step. -/
def resect_fitness (T_upper M_upper tumour_location : String)
    (invasion_features comorbidities : List String) (surgical_candidate : Bool) :
    Bool × Bool × Bool × List String :=
  -- rule 1: T4b by TNM string
  let u1 := strContains T_upper "4B"
  let d1 : List String := if u1 then [s_t4b_tnm] else []
  -- rule 2: T4b-equivalent invasion patterns (sentence only if not already
  -- unresectable, flag set regardless)
  let hasT4bLike := invasion_features.any (fun f => t4b_like_flags.contains f)
  let d2 := if hasT4bLike then (if u1 then d1 else d1 ++ [s_t4b_inv]) else d1
  let u2 := if hasT4bLike then true else u1
  -- rule 3: cervical location (functionally non-surgical), non-metastatic only
  let cervical_location := tumour_location == "cervical"
  let c3 := cervical_location && !u2 && (M_upper == "" || M_upper == "M0")
  let d3 := if c3 then d2 ++ [s_cervical] else d2
  let u3 := if c3 then true else u2
  -- rule 4: metastatic disease
  let c4 := M_upper != "" && M_upper != "M0"
  let d4 := if c4 then d3 ++ [s_metastatic M_upper] else d3
  let u4 := if c4 then true else u3
  -- rule 5: structured comorbidities
  let comorbid_codes := comorbidities.map strLower
  let c5 := ["severe_pulm", "severe_card", "frailty", "ckd", "liver"].any
    (fun code => comorbid_codes.contains code)
  let d5 := if c5 then d4 ++ [s_comorbid] else d4
  -- rule 6: explicit "not a surgical candidate" flag
  let c6 := !surgical_candidate
  let h6 := if c6 then true else c5
  let d6 := if c6 then d5 ++ [s_nocand] else d5
  (u4, h6, cervical_location, d6)

def engineRF (p : Patient) : Bool × Bool × Bool × List String :=
  resect_fitness (parsedT p) (effectiveM p) (lowLocation p) (lowInvasion p)
    p.comorbidities (candFlag p)

def unresectableFlag (p : Patient) : Bool := (engineRF p).1

def highRiskFlag (p : Patient) : Bool := (engineRF p).2.1

def cervicalFlag (p : Patient) : Bool := (engineRF p).2.2.1

/-! Part: Section 4 — early disease (Tis/T1a) -/

def d_early_a (T_upper : String) : String :=
  "Stage " ++ T_upper ++
    " disease is confined to the mucosa. Endoscopic therapy (EMR/ESD) is preferred for high-grade dysplasia and T1a lesions when the lesion is small and without high-risk features."

def d_early_b : String :=
  "If the lesion is extensive or not amenable to endoscopic removal, esophagectomy is recommended."

def earlyStage (T_upper : String) (unresectable high_risk_surgery : Bool) :
    List String × List String :=
  if !unresectable && !high_risk_surgery && (T_upper == "TIS" || T_upper == "T1A") then
    (["Endoscopic resection (EMR/ESD)"], [d_early_a T_upper, d_early_b])
  else ([], [])

/-! Part: Section 5 — T1b or T2, N0: surgery vs neoadjuvant -/

/-- Python `pdata.tumour_size_cm and pdata.tumour_size_cm >= 3`
(`None` and `0.0` are falsy). -/
def sizeGE3 : Option ℚ → Bool
  | Option.none => false
  | some s => s != 0 && decide (3 ≤ s)

/-- Python `pdata.grade and pdata.grade.lower().startswith("poor")`. -/
def gradePoor : Option String → Bool
  | Option.none => false
  | some g => g != "" && strStartsWith (strLower g) "poor"

def d_t1b_low (histology : String) : String :=
  "For a small (<3 cm), well-differentiated " ++ histology ++
    " tumour without lymphovascular invasion (pT1b–pT2,N0), esophagectomy alone is an NCCN-accepted option."

def d_t1b_high : String :=
  "Because the tumour has high-risk features (size ≥3 cm, poor differentiation and/or lymphovascular invasion), neoadjuvant chemoradiation followed by esophagectomy is preferred."

def t1bT2Stage (T_upper N_upper : String) (unresectable high_risk_surgery : Bool)
    (tumour_size_cm : Option ℚ) (grade : Option String)
    (lymphovascular_invasion : Option Bool) (histology : String) :
    List String × List String :=
  if !unresectable && !high_risk_surgery && (T_upper == "T1B" || T_upper == "T2") &&
      (N_upper == "" || N_upper == "N0") then
    let low_risk :=
      !(sizeGE3 tumour_size_cm || gradePoor grade ||
        lymphovascular_invasion.getD false)
    if low_risk then (["Primary esophagectomy"], [d_t1b_low histology])
    else (["Neoadjuvant chemoradiation → esophagectomy"], [d_t1b_high])
  else ([], [])

/-! Part: Section 6 — locally advanced resectable disease -/

def d_advanced (stage : String) : String :=
  "Locally advanced stage " ++ stage ++
    " is typically managed with neoadjuvant therapy followed by esophagectomy. Approaches include chemoradiation (CROSS-type) or peri-operative chemotherapy (e.g., FLOT) depending on histology and location."

def locallyAdvanced (T_upper N_upper : String) (unresectable high_risk_surgery : Bool)
    (tumour_location histology stage : String) : List String × List String :=
  if !unresectable && !high_risk_surgery &&
      (strContains T_upper "T3" || strContains T_upper "T4A" ||
        (N_upper != "" && N_upper != "N0")) then
    if strStartsWith tumour_location "gej_siewert" &&
        strLower histology == "adenocarcinoma" then
      (["Peri-operative chemotherapy (FLOT) → esophagectomy"], [d_advanced stage])
    else (["Neoadjuvant chemoradiation → esophagectomy"], [d_advanced stage])
  else ([], [])

/-! Part: Section 7 — adjuvant guidance after resection -/

def d_adjuvant_a : String :=
  "After surgery, pathologic staging determines the need for adjuvant therapy. Residual disease (ypT+ and/or ypN+) after neoadjuvant chemoradiation and R0 resection should receive adjuvant nivolumab for one year (CheckMate 577)."

def d_adjuvant_b : String :=
  "If margins are positive (R1/R2), options include additional chemoradiation if not previously delivered or palliative systemic therapy, depending on prior treatment."

def adjuvantNotes (unresectable high_risk_surgery : Bool)
    (summary_parts : List String) : List String :=
  if !unresectable && !high_risk_surgery &&
      summary_parts.any (fun part => strContains (strLower part) "esophagectomy") then
    [d_adjuvant_a, d_adjuvant_b]
  else []

/-! Part: Section 8 — unresectable or medically inoperable, non-metastatic -/

def d_inop_cervical : String :=
  "For cervical esophageal tumours, definitive chemoradiation is preferred over esophagectomy."

def d_inop_t4b : String :=
  "Because the tumour is T4b/unresectable by local invasion, definitive chemoradiation is recommended."

def d_inop_fitness : String :=
  "Although anatomically resectable, the patient is not a suitable surgical candidate; definitive chemoradiation is recommended."

def inoperablePathway (unresectable high_risk_surgery : Bool) (M_upper : String)
    (cervical_location : Bool) (invasion_features : List String) :
    List String × List String :=
  if (unresectable || high_risk_surgery) && (M_upper == "" || M_upper == "M0") then
    if cervical_location then
      (["Definitive chemoradiation (cervical esophagus)"], [d_inop_cervical])
    else if invasion_features.any (fun f => t4b_like_flags.contains f) then
      (["Definitive chemoradiation (T4b/unresectable)"], [d_inop_t4b])
    else if high_risk_surgery && !unresectable then
      (["Definitive chemoradiation (medically inoperable)"], [d_inop_fitness])
    else ([], [])
  else ([], [])

/-! Part: Section 9 — metastatic disease: biomarker-driven systemic therapy -/

def msi_mono_option : String :=
  "immune checkpoint inhibitor monotherapy (e.g., pembrolizumab or dostarlimab) for MSI-H/dMMR disease"

def her2_option : String :=
  "fluoropyrimidine + platinum chemotherapy + trastuzumab"

def cldn_option : String :=
  "FOLFOX or CAPOX + zolbetuximab for CLDN18.2-positive disease"

def squam_hi_option : String :=
  "platinum-based chemotherapy + nivolumab, or nivolumab/ipilimumab in selected patients"

def squam_lo_option : String :=
  "platinum-based chemotherapy ± nivolumab, depending on PD-L1 expression and prior therapy"

def adeno_hi_option : String :=
  "fluoropyrimidine + platinum chemotherapy + nivolumab or pembrolizumab"

def adeno_lo_option : String :=
  "fluoropyrimidine + platinum chemotherapy with optional immunotherapy depending on local practice"

def default_option : String :=
  "fluoropyrimidine + platinum chemotherapy (e.g., FOLFOX or CAPOX) with or without immunotherapy based on PD-L1 and histology"

/-- The biomarker-driven systemic-therapy sub-engine (source lines 358–411):
MSI-positivity is exclusive; otherwise HER2, CLDN18.2 (when HER2-negative),
squamous PD-L1 (threshold 10) and adenocarcinoma PD-L1 (threshold 5) options
are appended in order, falling back to standard chemotherapy. -/
def systemic_options (biomarkers : List (String × PyVal)) (histology : String) :
    List String :=
  let bmk := upperKeys biomarkers
  let hist := strLower histology
  let pd_l1 := pyNumVal (dget bmk "PD_L1_CPS")
  if pyTruthy (dget bmk "MSI") then [msi_mono_option]
  else
    let opts : List String :=
      if pyTruthy (dget bmk "HER2") then
        [her2_option ++
          (match pd_l1 with
           | some x =>
             if hist == "adenocarcinoma" && decide ((5 : ℚ) ≤ x) then
               " ± nivolumab or pembrolizumab"
             else ""
           | Option.none => "")]
      else []
    let opts := opts ++
      (if pyTruthy (dget bmk "CLDN18.2") && !pyTruthy (dget bmk "HER2") then
        [cldn_option]
      else [])
    let opts := opts ++
      (match pd_l1 with
       | some x =>
         if hist == "squamous" then
           if (10 : ℚ) ≤ x then [squam_hi_option] else [squam_lo_option]
         else []
       | Option.none => [])
    let opts := opts ++
      (match pd_l1 with
       | some x =>
         if hist == "adenocarcinoma" && !pyTruthy (dget bmk "HER2") &&
             !pyTruthy (dget bmk "CLDN18.2") then
           if (5 : ℚ) ≤ x then [adeno_hi_option] else [adeno_lo_option]
         else []
       | Option.none => [])
    if opts == ([] : List String) then [default_option] else opts

def metastaticDetail (systemic : List String) : String :=
  "For metastatic disease, first-line systemic therapy is chosen based on histology and biomarkers. Options include: " ++
    pyJoin "; " systemic ++
    ". Subsequent lines may incorporate agents such as ramucirumab + paclitaxel, irinotecan, or additional immunotherapy depending on prior exposure and tolerance."

def metastaticPathway (M_upper : String) (biomarkers : List (String × PyVal))
    (histology : String) : List String × List String :=
  if M_upper != "" && M_upper != "M0" then
    (["Systemic therapy"], [metastaticDetail (systemic_options biomarkers histology)])
  else ([], [])

/-! Part: Section 10 — consolidation, and the whole engine -/

def fallback_summary : String :=
  "No specific recommendation generated; please review clinical details and consult full NCCN guidelines and MDT discussion."

/-- Python `dict.fromkeys` de-duplication preserving first occurrence. -/
def dedupFirst (l : List String) : List String :=
  l.foldl (fun acc s => if acc.contains s then acc else acc ++ [s]) []

def consolidate (summary_parts details : List String) : RecResult :=
  let summary := pyJoin "; " (dedupFirst summary_parts)
  { summary := if summary == "" then fallback_summary else summary,
    details := pyJoin "\n" details }

def earlySection (p : Patient) : List String × List String :=
  earlyStage (parsedT p) (unresectableFlag p) (highRiskFlag p)

def t1bSection (p : Patient) : List String × List String :=
  t1bT2Stage (parsedT p) (parsedN p) (unresectableFlag p) (highRiskFlag p)
    p.tumour_size_cm p.grade p.lymphovascular_invasion p.histology

def advancedSection (p : Patient) : List String × List String :=
  locallyAdvanced (parsedT p) (parsedN p) (unresectableFlag p) (highRiskFlag p)
    (lowLocation p) p.histology p.stage

def surgeryParts (p : Patient) : List String :=
  (earlySection p).1 ++ (t1bSection p).1 ++ (advancedSection p).1

def adjuvantSection (p : Patient) : List String :=
  adjuvantNotes (unresectableFlag p) (highRiskFlag p) (surgeryParts p)

def inoperableSection (p : Patient) : List String × List String :=
  inoperablePathway (unresectableFlag p) (highRiskFlag p) (effectiveM p)
    (cervicalFlag p) (lowInvasion p)

def metastaticSection (p : Patient) : List String × List String :=
  metastaticPathway (effectiveM p) p.biomarkers p.histology

/-- The whole engine: `recommend_plan(patient)`. -/
def recommend_plan (p : Patient) : RecResult :=
  consolidate
    (surgeryParts p ++ (inoperableSection p).1 ++ (metastaticSection p).1)
    ((stageOne p).2 ++ (engineRF p).2.2.2 ++ (earlySection p).2 ++
      (t1bSection p).2 ++ (advancedSection p).2 ++ adjuvantSection p ++
      (inoperableSection p).2 ++ (metastaticSection p).2)

/-! Part: Numeric form conversion (`app.py`, lines 145–154)

`age = int(age_raw) if age_raw.isdigit() else None` never raises;
`tumour_size_cm = float(size_raw) if size_raw else None` raises `ValueError`
for a non-empty string `float` rejects; the PD-L1 field is converted inside
`try/except` and degrades to `None`.  `pyFloatAccepts` models the acceptance
language of Python's `float(...)` for ASCII input (optional whitespace and
sign, `inf`/`infinity`/`nan`, digit parts with single underscores, optional
decimal point and exponent). -/

inductive PyError where
  | valueError : PyError
deriving DecidableEq

def pyWhitespace : List Char := [' ', '\t', '\n', '\r', '\x0b', '\x0c']

def dropWS (l : List Char) : List Char :=
  l.dropWhile (fun c => pyWhitespace.contains c)

def pyStrip (l : List Char) : List Char := dropWS ((dropWS l.reverse).reverse)

/-- Consume the continuation of a digit part: digits, with single
underscores allowed between digits. -/
def digitpartRest : List Char → List Char
  | '_' :: c :: rest => if c.isDigit then digitpartRest rest else '_' :: c :: rest
  | c :: rest => if c.isDigit then digitpartRest rest else c :: rest
  | [] => []

/-- Consume a digit part (which must start with a digit); `none` if absent. -/
def digitpart : List Char → Option (List Char)
  | c :: rest => if c.isDigit then some (digitpartRest rest) else Option.none
  | [] => Option.none

/-- Consume the mantissa of a float literal (`12`, `12.`, `12.5`, `.5`). -/
def parseMantissa (l : List Char) : Option (List Char) :=
  match l with
  | '.' :: rest => digitpart rest
  | _ =>
    match digitpart l with
    | some rest =>
      match rest with
      | '.' :: rest2 =>
        some (match digitpart rest2 with | some r3 => r3 | Option.none => rest2)
      | _ => some rest
    | Option.none => Option.none

/-- Consume an optional exponent (`e`/`E`, optional sign, digit part). -/
def parseExponent : List Char → Option (List Char)
  | c :: rest =>
    if c == 'e' || c == 'E' then
      digitpart
        (match rest with
         | s :: r2 => if s == '+' || s == '-' then r2 else rest
         | [] => rest)
    else some (c :: rest)
  | [] => some []

/-- Does Python's `float(s)` accept the (ASCII) string `s`? -/
def pyFloatAccepts (s : String) : Bool :=
  let l := pyStrip s.data
  let l := match l with
    | c :: rest => if c == '+' || c == '-' then rest else c :: rest
    | [] => []
  let low := l.map Char.toLower
  if low == "inf".data || low == "infinity".data || low == "nan".data then true
  else
    match parseMantissa l with
    | some rest =>
      match parseExponent rest with
      | some [] => true
      | _ => false
    | Option.none => false

/-- Python `s.isdigit()` (ASCII). -/
def pyIsdigit (s : String) : Bool := s != "" && s.data.all Char.isDigit

def digitsToNat (l : List Char) : Nat :=
  l.foldl (fun n c => 10 * n + (c.toNat - '0'.toNat)) 0

/-- `int(age_raw) if age_raw.isdigit() else None` — never raises. -/
def convertAge (age_raw : String) : Option Int :=
  if pyIsdigit age_raw then some (digitsToNat age_raw.data) else Option.none

/-- Python `tumour_size_cm = float(size_raw) if size_raw else None` — its
success/failure behaviour;
the `Bool` records whether a size value was supplied.  (The parsed value
itself is not modelled: only the error behaviour is specified here, and the
engine receives sizes as exact rationals.) -/
def convertSize (size_raw : String) : Except PyError Bool :=
  if size_raw == "" then Except.ok false
  else if pyFloatAccepts size_raw then Except.ok true
  else Except.error PyError.valueError

/-- The `try: float(pdl1_raw) except ValueError: None` conversion — never
raises; the `Bool` records whether a value survived. -/
def convertPdl1 (pdl1_raw : String) : Bool :=
  pdl1_raw != "" && pyFloatAccepts pdl1_raw

/-- The numeric conversions of `app.py` lines 145–154, in source order. -/
def formNumericConversion (age_raw size_raw pdl1_raw : String) :
    Except PyError (Option Int × Bool × Bool) :=
  match convertSize size_raw with
  | Except.error e => Except.error e
  | Except.ok b => Except.ok (convertAge age_raw, b, convertPdl1 pdl1_raw)

/-- The hypothesis of claim C4: a numeric field (age or tumour size) was
supplied as non-numeric text. -/
def suppliedNonNumeric (age_raw size_raw : String) : Bool :=
  (age_raw != "" && !pyFloatAccepts age_raw) ||
    (size_raw != "" && !pyFloatAccepts size_raw)



/-! Part: Concrete records used by witnesses and counterexamples -/

def w1rec : Patient := { stage := "T3N1M0", distant_met_sites := ["liver"] }

def c2rec : Patient :=
  { stage := "T3N1M1", histology := "adenocarcinoma",
    biomarkers := [("HER2", PyVal.boolV true), ("MSI", PyVal.boolV true),
                   ("CLDN18.2", PyVal.boolV true), ("PD_L1_CPS", PyVal.numV 50)] }

def c3xrec : Patient :=
  { stage := "T3N1M1", histology := "adenocarcinoma",
    biomarkers := [("HER2", PyVal.boolV false), ("MSI", PyVal.boolV true),
                   ("CLDN18.2", PyVal.boolV false), ("PD_L1_CPS", PyVal.numV 5)] }

def c3arec : Patient :=
  { stage := "T3N1M1", histology := "adenocarcinoma",
    biomarkers := [("HER2", PyVal.boolV false), ("MSI", PyVal.boolV false),
                   ("CLDN18.2", PyVal.boolV false), ("PD_L1_CPS", PyVal.numV 5)] }

def c3brec : Patient :=
  { stage := "T3N1M1", histology := "adenocarcinoma",
    biomarkers := [("HER2", PyVal.boolV false), ("MSI", PyVal.boolV false),
                   ("CLDN18.2", PyVal.boolV false),
                   ("PD_L1_CPS", PyVal.numV (mkRat 4999 1000))] }

def c3srec : Patient :=
  { stage := "T3N1M1", histology := "squamous",
    biomarkers := [("MSI", PyVal.boolV false), ("PD_L1_CPS", PyVal.numV 10)] }

def c6rec : Patient :=
  { stage := "T4BN1M0", invasion_features := ["aortic_encasement"] }

def w7rec : Patient :=
  { stage := "T3N1M0", invasion_features := ["aortic_encasement"] }

def ex8rec : Patient :=
  { stage := "T1BN0M0", histology := "adenocarcinoma", tumour_size_cm := some 2,
    grade := some "well", lymphovascular_invasion := some false,
    surgical_candidate := some true }

def q9rec : Patient := { stage := "T3N1M1", histology := "squamous" }

def q9brec : Patient :=
  { stage := "T3N1M1", histology := "squamous",
    biomarkers := [("PD_L1_CPS", PyVal.numV 0)] }

example : parse_stage "T3N1M0" = ("T3", "N1", "M0") := by decide
example : parse_stage "Stage T3, N1, M0" = ("T3", "N1", "M0") := by decide
example : parse_stage "" = ("", "", "") := by decide
example : parse_stage "t4bn2m1" = ("T4B", "N2", "M1") := by decide
example : pyFloatAccepts " 4.999 " = true := by decide
example : pyFloatAccepts "abc" = false := by decide
example : pyFloatAccepts "1_0.5e-2" = true := by decide
example : pyFloatAccepts "1__0" = false := by decide
example : pyFloatAccepts "-inf" = true := by decide
example : pyFloatAccepts "1." = true := by decide
example : pyFloatAccepts ".5" = true := by decide
example : pyFloatAccepts "1e" = false := by decide
example : pyFloatAccepts "" = false := by decide

/-! Part: Helper lemmas -/

theorem reconcileM_met (M : String) (d i : List String)
    (h : hasImagingMetOf d i = true) :
    ((reconcileM M d i).1 != "" && (reconcileM M d i).1 != "M0") = true := by
  unfold reconcileM
  cases hM : (M == "" || M == "M0") with
  | true => simp [h, hM]
  | false =>
    rcases Bool.or_eq_false_iff.mp hM with ⟨h1, h2⟩
    simp [h, hM, bne, h1, h2]

theorem rf_met_unres (T M loc : String) (inv com : List String) (cand : Bool)
    (h : (M != "" && M != "M0") = true) :
    (resect_fitness T M loc inv com cand).1 = true := by
  simp [resect_fitness, h]

theorem rf_inv_unres (T M loc : String) (inv com : List String) (cand : Bool)
    (h : inv.any (fun f => t4b_like_flags.contains f) = true) :
    (resect_fitness T M loc inv com cand).1 = true := by
  simp only [resect_fitness, h, if_true]
  cases hc4 : (M != "" && M != "M0") <;> simp [hc4]

theorem rf_unres_false_nonmet (T M loc : String) (inv com : List String) (cand : Bool)
    (h : (resect_fitness T M loc inv com cand).1 = false) :
    (M != "" && M != "M0") = false := by
  cases hc : (M != "" && M != "M0") with
  | false => rfl
  | true => rw [rf_met_unres T M loc inv com cand hc] at h; exact absurd h (by simp)

theorem nonmet_or (M : String) (h : (M != "" && M != "M0") = false) :
    (M == "" || M == "M0") = true := by
  cases h1 : (M == "") <;> cases h2 : (M == "M0") <;>
    simp [bne, h1, h2] at h ⊢

theorem earlyStage_unres (T : String) (hr : Bool) :
    earlyStage T true hr = ([], []) := by
  simp [earlyStage]

theorem t1bT2_unres (T N : String) (hr : Bool) (sz : Option ℚ) (g : Option String)
    (lvi : Option Bool) (hist : String) :
    t1bT2Stage T N true hr sz g lvi hist = ([], []) := by
  simp [t1bT2Stage]

theorem advanced_unres (T N : String) (hr : Bool) (loc hist st : String) :
    locallyAdvanced T N true hr loc hist st = ([], []) := by
  simp [locallyAdvanced]

theorem adjuvant_unres (hr : Bool) (parts : List String) :
    adjuvantNotes true hr parts = [] := by
  simp [adjuvantNotes]

theorem inoperable_met (u hr : Bool) (M : String) (cerv : Bool) (inv : List String)
    (h : (M != "" && M != "M0") = true) :
    inoperablePathway u hr M cerv inv = ([], []) := by
  rcases Bool.and_eq_true_iff.mp h with ⟨h1, h2⟩
  simp only [bne, Bool.not_eq_true'] at h1 h2
  simp [inoperablePathway, h1, h2]

theorem inoperable_fit (M : String) (cerv : Bool) (inv : List String) :
    inoperablePathway false false M cerv inv = ([], []) := by
  simp [inoperablePathway]

theorem metastatic_on (M : String) (b : List (String × PyVal)) (hist : String)
    (h : (M != "" && M != "M0") = true) :
    metastaticPathway M b hist =
      (["Systemic therapy"], [metastaticDetail (systemic_options b hist)]) := by
  simp [metastaticPathway, h]

theorem metastatic_off (M : String) (b : List (String × PyVal)) (hist : String)
    (h : (M != "" && M != "M0") = false) :
    metastaticPathway M b hist = ([], []) := by
  simp only [metastaticPathway, h]
  simp

theorem consolidate_single (x : String) (d : List String) (hx : (x == "") = false) :
    (consolidate [x] d).summary = x := by
  simp [consolidate, dedupFirst, pyJoin, hx]

/-- The systemic-therapy sub-engine as a function of the four biomarker
lookups it performs (proof-layer view; definitionally equal to
`systemic_options`). -/
def systemicCore (msi her2 cldn : Bool) (pd_l1 : Option ℚ) (hist : String) :
    List String :=
  if msi then [msi_mono_option]
  else
    let opts : List String :=
      if her2 then
        [her2_option ++
          (match pd_l1 with
           | some x =>
             if hist == "adenocarcinoma" && decide ((5 : ℚ) ≤ x) then
               " ± nivolumab or pembrolizumab"
             else ""
           | Option.none => "")]
      else []
    let opts := opts ++ (if cldn && !her2 then [cldn_option] else [])
    let opts := opts ++
      (match pd_l1 with
       | some x =>
         if hist == "squamous" then
           if (10 : ℚ) ≤ x then [squam_hi_option] else [squam_lo_option]
         else []
       | Option.none => [])
    let opts := opts ++
      (match pd_l1 with
       | some x =>
         if hist == "adenocarcinoma" && !her2 && !cldn then
           if (5 : ℚ) ≤ x then [adeno_hi_option] else [adeno_lo_option]
         else []
       | Option.none => [])
    if opts == ([] : List String) then [default_option] else opts

theorem systemic_options_eq (b : List (String × PyVal)) (hist : String) :
    systemic_options b hist =
      systemicCore (pyTruthy (dget (upperKeys b) "MSI"))
        (pyTruthy (dget (upperKeys b) "HER2"))
        (pyTruthy (dget (upperKeys b) "CLDN18.2"))
        (pyNumVal (dget (upperKeys b) "PD_L1_CPS")) (strLower hist) := rfl

theorem dget_snoc (l : List (String × PyVal)) (k K : String) (v : PyVal) :
    dget (l ++ [(k, v)]) K = if k == K then some v else dget l K := by
  unfold dget
  rw [List.foldl_append]
  rfl

theorem upperKeys_snoc (l : List (String × PyVal)) (k : String) (v : PyVal) :
    upperKeys (l ++ [(k, v)]) = upperKeys l ++ [(strUpper k, v)] := by
  simp [upperKeys]

theorem pyTruthy_snoc_lookup (b : List (String × PyVal)) (k K : String)
    (habs : dget (upperKeys b) k = Option.none) :
    pyTruthy (if k == K then some (PyVal.boolV false) else dget (upperKeys b) K) =
      pyTruthy (dget (upperKeys b) K) := by
  cases hkK : (k == K) with
  | false => simp [hkK]
  | true =>
    have hk : k = K := by
      have := hkK
      exact eq_of_beq this
    subst hk
    simp [habs, pyTruthy]

theorem systemic_options_snoc_false (b : List (String × PyVal)) (hist k : String)
    (hku : strUpper k = k)
    (hpd : (k == "PD_L1_CPS") = false)
    (habs : dget (upperKeys b) k = Option.none) :
    systemic_options (b ++ [(k, PyVal.boolV false)]) hist =
      systemic_options b hist := by
  rw [systemic_options_eq, systemic_options_eq, upperKeys_snoc, hku,
    dget_snoc, dget_snoc, dget_snoc, dget_snoc,
    pyTruthy_snoc_lookup b k "MSI" habs,
    pyTruthy_snoc_lookup b k "HER2" habs,
    pyTruthy_snoc_lookup b k "CLDN18.2" habs,
    hpd]
  simp

theorem recommend_plan_bio_congr (p : Patient) (b' : List (String × PyVal))
    (h : systemic_options b' p.histology = systemic_options p.biomarkers p.histology) :
    recommend_plan { p with biomarkers := b' } = recommend_plan p := by
  cases p
  simp only [recommend_plan, surgeryParts, earlySection, t1bSection, advancedSection,
    adjuvantSection, inoperableSection, metastaticSection, metastaticPathway,
    engineRF, stageOne, effectiveM, unresectableFlag, highRiskFlag, cervicalFlag,
    parsedT, parsedN, parsedM, lowLocation, lowInvasion, lowDistant, candFlag] at h ⊢
  rw [h]

/-- Claim C10: records that differ only in `age`, `nodal_regions`,
`imaging_findings` and/or `comorbidities_other` receive identical
`{summary, details}` — none of these four accepted inputs influences the
output of `recommend_plan`. -/
theorem c10_unused_inputs (p : Patient) (a : Option Int) (n : List String)
    (i c : String) :
    recommend_plan
        { p with age := a, nodal_regions := n, imaging_findings := i,
                 comorbidities_other := c } =
      recommend_plan p := by
  cases p
  rfl

/-- Claim C2: for every metastatic record whose biomarkers map `MSI` to
`True`, the systemic-therapy sub-engine returns exactly the single
checkpoint-inhibitor-monotherapy regimen (whatever the HER2, CLDN18.2 and
PD-L1 values), and the metastatic section embeds exactly that option list. -/
theorem c2_msi_exclusivity (p : Patient)
    (hmet : isMetastatic p = true)
    (hmsi : dget (upperKeys p.biomarkers) "MSI" = some (PyVal.boolV true)) :
    systemic_options p.biomarkers p.histology = [msi_mono_option] ∧
    metastaticSection p =
      (["Systemic therapy"], [metastaticDetail [msi_mono_option]]) := by
  have hopts : systemic_options p.biomarkers p.histology = [msi_mono_option] := by
    rw [systemic_options_eq, hmsi]
    simp [pyTruthy, systemicCore]
  refine ⟨hopts, ?_⟩
  unfold isMetastatic at hmet
  unfold metastaticSection
  rw [metastatic_on _ _ _ hmet, hopts]

theorem c2_witness :
    systemic_options c2rec.biomarkers c2rec.histology = [msi_mono_option] ∧
    metastaticSection c2rec =
      (["Systemic therapy"], [metastaticDetail [msi_mono_option]]) :=
  c2_msi_exclusivity c2rec (by decide) (by decide)

/-- Claim C5 counterexample: for the all-default record the `details` field
of `recommend_plan` is the empty string, contradicting the claimed non-empty
`details`. -/
theorem c5_counterexample : (recommend_plan {}).details = "" := by decide

/-- Claim C5 (amended): for an entirely empty/default record,
`recommend_plan` returns the literal fallback summary and an empty `details`
string. -/
theorem c5_empty_record_amended :
    recommend_plan {} = { summary := fallback_summary, details := "" } := by
  decide

/-- Claim C4 counterexample: an age supplied as the non-numeric text `"abc"`
does not make the numeric conversion fail at all (the claim demands an
`InvalidInputError` there), while a non-numeric tumour size fails with
`ValueError` — the only error the code can produce; no `InvalidInputError`
exists anywhere in the repository. -/
theorem c4_counterexample :
    (formNumericConversion "abc" "" "").isOk = true ∧
    suppliedNonNumeric "abc" "" = true ∧
    formNumericConversion "" "abc" "" = Except.error PyError.valueError := by
  refine ⟨by decide, by decide, ?_⟩
  rfl

/-- Claim C4 (amended): the engine itself never raises; the form-layer
numeric conversion fails exactly when a non-empty tumour-size string is
rejected by `float(...)`, and such a failure is a `ValueError` (a non-numeric
age or PD-L1 string degrades to an unknown value without error). -/
theorem c4_conversion_amended (a s p' : String) :
    ((formNumericConversion a s p').isOk = false ↔
      (s != "" && !pyFloatAccepts s) = true) ∧
    ((formNumericConversion a s p').isOk = true ∨
      formNumericConversion a s p' = Except.error PyError.valueError) := by
  unfold formNumericConversion convertSize
  cases hz : (s == "") <;> cases ha : pyFloatAccepts s <;>
    simp [hz, ha, bne, Except.isOk, Except.toBool]

/-- Claim C9 counterexample: for the `MSI` key, absence is NOT observable —
no metastatic record's output changes when an absent `MSI` key is instead
recorded explicitly `False`, refuting the claimed existence of a
distinguishing record for every biomarker key. -/
theorem c9_counterexample :
    ¬ ∃ p : Patient,
        dget (upperKeys p.biomarkers) "MSI" = Option.none ∧
        isMetastatic p = true ∧
        recommend_plan
            { p with biomarkers := p.biomarkers ++ [("MSI", PyVal.boolV false)] } ≠
          recommend_plan p := by
  rintro ⟨p, habs, hmet, hne⟩
  exact hne (recommend_plan_bio_congr p _
    (systemic_options_snoc_false p.biomarkers p.histology "MSI"
      (by decide) (by decide) habs))

set_option maxRecDepth 8000 in
/-- Claim C9 (amended): "not tested" is distinct from "explicitly negative"
only for `PD_L1_CPS` (absent vs a recorded CPS number changes the output);
for the boolean markers `MSI`, `HER2` and `CLDN18.2` the engine's output is
unchanged when an absent key is instead recorded explicitly `False`. -/
theorem c9_biomarker_absence_amended :
    recommend_plan q9rec ≠ recommend_plan q9brec ∧
    (∀ p : Patient, dget (upperKeys p.biomarkers) "MSI" = Option.none →
      recommend_plan
          { p with biomarkers := p.biomarkers ++ [("MSI", PyVal.boolV false)] } =
        recommend_plan p) ∧
    (∀ p : Patient, dget (upperKeys p.biomarkers) "HER2" = Option.none →
      recommend_plan
          { p with biomarkers := p.biomarkers ++ [("HER2", PyVal.boolV false)] } =
        recommend_plan p) ∧
    (∀ p : Patient, dget (upperKeys p.biomarkers) "CLDN18.2" = Option.none →
      recommend_plan
          { p with biomarkers := p.biomarkers ++ [("CLDN18.2", PyVal.boolV false)] } =
        recommend_plan p) := by
  refine ⟨by decide, ?_, ?_, ?_⟩ <;>
  · intro p habs
    exact recommend_plan_bio_congr p _
      (systemic_options_snoc_false _ _ _ (by decide) (by decide) habs)

theorem c9_witness :
    recommend_plan
        { q9rec with biomarkers := q9rec.biomarkers ++ [("MSI", PyVal.boolV false)] } =
      recommend_plan q9rec ∧
    recommend_plan
        { q9rec with biomarkers := q9rec.biomarkers ++ [("HER2", PyVal.boolV false)] } =
      recommend_plan q9rec ∧
    recommend_plan
        { q9rec with biomarkers := q9rec.biomarkers ++ [("CLDN18.2", PyVal.boolV false)] } =
      recommend_plan q9rec :=
  ⟨c9_biomarker_absence_amended.2.1 q9rec (by decide),
   c9_biomarker_absence_amended.2.2.1 q9rec (by decide),
   c9_biomarker_absence_amended.2.2.2 q9rec (by decide)⟩

/-- Claim C3 counterexample: a metastatic, HER2-negative, CLDN18.2-negative
adenocarcinoma record with `PD_L1_CPS = 5` that is also MSI-positive does NOT
select the chemo + checkpoint-inhibitor option (MSI exclusivity wins), so the
claim's universal statement over all such records fails. -/
theorem c3_counterexample :
    isMetastatic c3xrec = true ∧
    strLower c3xrec.histology = "adenocarcinoma" ∧
    pyTruthy (dget (upperKeys c3xrec.biomarkers) "HER2") = false ∧
    pyTruthy (dget (upperKeys c3xrec.biomarkers) "CLDN18.2") = false ∧
    pyNumVal (dget (upperKeys c3xrec.biomarkers) "PD_L1_CPS") = some 5 ∧
    adeno_hi_option ∉ systemic_options c3xrec.biomarkers c3xrec.histology := by
  decide

/-- Claim C3 (amended): for records that are additionally not MSI-positive,
the PD-L1 CPS thresholds are inclusive exactly as claimed: in metastatic
HER2-negative, CLDN18.2-negative adenocarcinoma, CPS ≥ 5 (including 5)
selects the chemo + checkpoint-inhibitor option and CPS < 5 the
below-threshold option; in metastatic squamous disease with known CPS,
CPS ≥ 10 selects chemo + nivolumab (or nivolumab/ipilimumab) and CPS < 10
the chemo ± nivolumab option. -/
theorem c3_thresholds_amended :
    (∀ (p : Patient) (x : ℚ),
      isMetastatic p = true →
      pyTruthy (dget (upperKeys p.biomarkers) "MSI") = false →
      strLower p.histology = "adenocarcinoma" →
      pyTruthy (dget (upperKeys p.biomarkers) "HER2") = false →
      pyTruthy (dget (upperKeys p.biomarkers) "CLDN18.2") = false →
      pyNumVal (dget (upperKeys p.biomarkers) "PD_L1_CPS") = some x →
      ((5 ≤ x → systemic_options p.biomarkers p.histology = [adeno_hi_option]) ∧
       (x < 5 → systemic_options p.biomarkers p.histology = [adeno_lo_option]))) ∧
    (∀ (p : Patient) (x : ℚ),
      isMetastatic p = true →
      pyTruthy (dget (upperKeys p.biomarkers) "MSI") = false →
      strLower p.histology = "squamous" →
      pyNumVal (dget (upperKeys p.biomarkers) "PD_L1_CPS") = some x →
      ((10 ≤ x →
          squam_hi_option ∈ systemic_options p.biomarkers p.histology ∧
          squam_lo_option ∉ systemic_options p.biomarkers p.histology) ∧
       (x < 10 →
          squam_lo_option ∈ systemic_options p.biomarkers p.histology ∧
          squam_hi_option ∉ systemic_options p.biomarkers p.histology))) := by
  constructor
  · intro p x hmet hmsi hhist hher2 hcldn hpd
    rw [systemic_options_eq, hmsi, hher2, hcldn, hpd, hhist]
    constructor
    · intro h5
      simp [systemicCore, h5]
    · intro h5
      have h5' : ¬ (5 : ℚ) ≤ x := not_le.mpr h5
      simp [systemicCore, h5']
  · intro p x hmet hmsi hhist hpd
    rw [systemic_options_eq, hmsi, hpd, hhist]
    cases hh2 : pyTruthy (dget (upperKeys p.biomarkers) "HER2") <;>
    cases hcl : pyTruthy (dget (upperKeys p.biomarkers) "CLDN18.2") <;>
    · constructor
      · intro h10
        simp [systemicCore, h10]
        decide
      · intro h10
        have h10' : ¬ (10 : ℚ) ≤ x := not_le.mpr h10
        simp [systemicCore, h10']
        decide

theorem c3_witness :
    systemic_options c3arec.biomarkers c3arec.histology = [adeno_hi_option] ∧
    systemic_options c3brec.biomarkers c3brec.histology = [adeno_lo_option] ∧
    squam_hi_option ∈ systemic_options c3srec.biomarkers c3srec.histology :=
  ⟨(c3_thresholds_amended.1 c3arec 5 (by decide) (by decide) (by decide)
      (by decide) (by decide) (by decide)).1 (by decide),
   (c3_thresholds_amended.1 c3brec (mkRat 4999 1000) (by decide) (by decide)
      (by decide) (by decide) (by decide) (by decide)).2 (by decide),
   ((c3_thresholds_amended.2 c3srec 10 (by decide) (by decide) (by decide)
      (by decide)).1 (by decide)).1⟩

theorem summary_of_parts (p : Patient) (x : String) (hx : (x == "") = false)
    (h : surgeryParts p ++ (inoperableSection p).1 ++ (metastaticSection p).1 = [x]) :
    (recommend_plan p).summary = x := by
  unfold recommend_plan
  rw [h]
  exact consolidate_single _ _ hx

/-- Claim C1: whenever a coded distant-metastasis site is present or the
invasion features include pleural/peritoneal carcinomatosis, the engine
treats the disease as metastatic: the summary contains "Systemic therapy"
and never any surgical pathway label (no occurrence of "esophagectomy"),
and a parsed `M0`/unknown M category is overridden to `M1` with the
overridden sites recorded in the rationale. -/
theorem c1_imaging_overrides_tnm (p : Patient) (h : hasImagingMet p = true) :
    strContains (recommend_plan p).summary "Systemic therapy" = true ∧
    strContains (recommend_plan p).summary "esophagectomy" = false ∧
    ((parsedM p = "" ∨ parsedM p = "M0") →
      effectiveM p = "M1" ∧
      (stageOne p).2 =
        [metOverrideSentence
          (pyJoin ", " (distant_sites_report (lowDistant p) (lowInvasion p)))]) := by
  unfold hasImagingMet at h
  have hMet : (effectiveM p != "" && effectiveM p != "M0") = true :=
    reconcileM_met _ _ _ h
  have hu : unresectableFlag p = true := by
    unfold unresectableFlag engineRF
    exact rf_met_unres _ _ _ _ _ _ hMet
  have h4 : earlySection p = ([], []) := by
    unfold earlySection; rw [hu]; exact earlyStage_unres _ _
  have h5 : t1bSection p = ([], []) := by
    unfold t1bSection; rw [hu]; exact t1bT2_unres _ _ _ _ _ _ _
  have h6 : advancedSection p = ([], []) := by
    unfold advancedSection; rw [hu]; exact advanced_unres _ _ _ _ _ _
  have h8 : inoperableSection p = ([], []) := by
    unfold inoperableSection; exact inoperable_met _ _ _ _ _ hMet
  have h9 : metastaticSection p =
      (["Systemic therapy"],
       [metastaticDetail (systemic_options p.biomarkers p.histology)]) := by
    unfold metastaticSection; exact metastatic_on _ _ _ hMet
  have hsum : (recommend_plan p).summary = "Systemic therapy" := by
    refine summary_of_parts p _ (by decide) ?_
    unfold surgeryParts
    rw [h4, h5, h6, h8, h9]
    rfl
  refine ⟨by rw [hsum]; decide, by rw [hsum]; decide, ?_⟩
  intro hM
  have hcond : (parsedM p == "" || parsedM p == "M0") = true := by
    rcases hM with hM | hM <;> rw [hM] <;> decide
  constructor
  · unfold effectiveM stageOne reconcileM
    rw [h, hcond]
    rfl
  · unfold stageOne reconcileM
    rw [h, hcond]
    rfl

theorem c1_witness :
    strContains (recommend_plan w1rec).summary "Systemic therapy" = true ∧
    strContains (recommend_plan w1rec).summary "esophagectomy" = false ∧
    effectiveM w1rec = "M1" :=
  ⟨(c1_imaging_overrides_tnm w1rec (by decide)).1,
   (c1_imaging_overrides_tnm w1rec (by decide)).2.1,
   ((c1_imaging_overrides_tnm w1rec (by decide)).2.2 (Or.inr (by decide))).1⟩

/-- Claim C7: for every non-metastatic record whose invasion features meet
the T4b-like set, the unresectable flag is set, the summary contains a
"Definitive chemoradiation" entry and no "esophagectomy"; and pericardial
involvement alone never sets the unresectable flag. -/
theorem c7_t4b_equivalent (p : Patient)
    (hinv : (lowInvasion p).any (fun f => t4b_like_flags.contains f) = true)
    (hm : isMetastatic p = false) :
    unresectableFlag p = true ∧
    strContains (recommend_plan p).summary "Definitive chemoradiation" = true ∧
    strContains (recommend_plan p).summary "esophagectomy" = false ∧
    (∀ (T M loc : String) (com : List String) (cand : Bool),
      strContains T "4B" = false → (M == "" || M == "M0") = true →
      (loc == "cervical") = false →
      (resect_fitness T M loc ["pericardial_involvement"] com cand).1 = false) := by
  unfold isMetastatic at hm
  have hu : unresectableFlag p = true := by
    unfold unresectableFlag engineRF
    exact rf_inv_unres _ _ _ _ _ _ hinv
  have h4 : earlySection p = ([], []) := by
    unfold earlySection; rw [hu]; exact earlyStage_unres _ _
  have h5 : t1bSection p = ([], []) := by
    unfold t1bSection; rw [hu]; exact t1bT2_unres _ _ _ _ _ _ _
  have h6 : advancedSection p = ([], []) := by
    unfold advancedSection; rw [hu]; exact advanced_unres _ _ _ _ _ _
  have h9 : metastaticSection p = ([], []) := by
    unfold metastaticSection; exact metastatic_off _ _ _ hm
  have hMor : (effectiveM p == "" || effectiveM p == "M0") = true :=
    nonmet_or _ hm
  have h8 : inoperableSection p =
      (if cervicalFlag p then
        (["Definitive chemoradiation (cervical esophagus)"], [d_inop_cervical])
      else (["Definitive chemoradiation (T4b/unresectable)"], [d_inop_t4b])) := by
    unfold inoperableSection inoperablePathway
    rw [hu, hMor, hinv]
    simp
  have hsum : (recommend_plan p).summary =
        "Definitive chemoradiation (cervical esophagus)" ∨
      (recommend_plan p).summary =
        "Definitive chemoradiation (T4b/unresectable)" := by
    cases hcerv : cervicalFlag p with
    | true =>
      left
      refine summary_of_parts p _ (by decide) ?_
      unfold surgeryParts
      rw [h4, h5, h6, h9, h8, hcerv]
      rfl
    | false =>
      right
      refine summary_of_parts p _ (by decide) ?_
      unfold surgeryParts
      rw [h4, h5, h6, h9, h8, hcerv]
      rfl
  refine ⟨hu, ?_, ?_, ?_⟩
  · rcases hsum with hs | hs <;> rw [hs] <;> decide
  · rcases hsum with hs | hs <;> rw [hs] <;> decide
  · intro T M loc com cand hT hMor' hloc
    have hc4 : (M != "" && M != "M0") = false := by
      cases h1 : (M == "") <;> cases h2 : (M == "M0") <;>
        simp [bne, h1, h2] at hMor' ⊢
    simp [resect_fitness, hT, hloc, hc4]
    decide

theorem c7_witness :
    unresectableFlag w7rec = true ∧
    strContains (recommend_plan w7rec).summary "Definitive chemoradiation" = true ∧
    strContains (recommend_plan w7rec).summary "esophagectomy" = false :=
  ⟨(c7_t4b_equivalent w7rec (by decide) (by decide)).1,
   (c7_t4b_equivalent w7rec (by decide) (by decide)).2.1,
   (c7_t4b_equivalent w7rec (by decide) (by decide)).2.2.1⟩

theorem earlyStage_skip (T : String) (h : (T == "TIS" || T == "T1A") = false) :
    earlyStage T false false = ([], []) := by
  simp [earlyStage, h]

theorem advanced_skip (T N loc hist st : String)
    (h : (strContains T "T3" || strContains T "T4A" || (N != "" && N != "N0")) =
      false) :
    locallyAdvanced T N false false loc hist st = ([], []) := by
  simp only [locallyAdvanced, Bool.not_false, Bool.true_and, h]
  simp

theorem t1b_fire (T N : String) (sz : Option ℚ) (g : Option String)
    (lvi : Option Bool) (hist : String)
    (hTc : (T == "T1B" || T == "T2") = true) (hNc : (N == "" || N == "N0") = true) :
    t1bT2Stage T N false false sz g lvi hist =
      (if !(sizeGE3 sz || gradePoor g || lvi.getD false) then
        (["Primary esophagectomy"], [d_t1b_low hist])
      else (["Neoadjuvant chemoradiation → esophagectomy"], [d_t1b_high])) := by
  simp [t1bT2Stage, hTc, hNc]

/-- Claim C8: for records with parsed T in {T1B, T2}, N unknown or N0, not
unresectable and not high-risk: small (or unknown) size, non-poor grade and
no lymphovascular invasion yield a "Primary esophagectomy" summary; size ≥ 3,
poor differentiation or lymphovascular invasion yield
"Neoadjuvant chemoradiation → esophagectomy". -/
theorem c8_early_resection (p : Patient)
    (hT : parsedT p = "T1B" ∨ parsedT p = "T2")
    (hN : parsedN p = "" ∨ parsedN p = "N0")
    (hu : unresectableFlag p = false)
    (hh : highRiskFlag p = false) :
    ((sizeGE3 p.tumour_size_cm = false ∧ gradePoor p.grade = false ∧
        p.lymphovascular_invasion.getD false = false) →
      strContains (recommend_plan p).summary "Primary esophagectomy" = true) ∧
    ((sizeGE3 p.tumour_size_cm = true ∨ gradePoor p.grade = true ∨
        p.lymphovascular_invasion.getD false = true) →
      strContains (recommend_plan p).summary
        "Neoadjuvant chemoradiation → esophagectomy" = true) := by
  have hMet : (effectiveM p != "" && effectiveM p != "M0") = false := by
    have hu' := hu
    unfold unresectableFlag engineRF at hu'
    exact rf_unres_false_nonmet _ _ _ _ _ _ hu'
  have h9 : metastaticSection p = ([], []) := by
    unfold metastaticSection; exact metastatic_off _ _ _ hMet
  have h8 : inoperableSection p = ([], []) := by
    unfold inoperableSection; rw [hu, hh]; exact inoperable_fit _ _ _
  have h4 : earlySection p = ([], []) := by
    unfold earlySection; rw [hu, hh]
    rcases hT with hT' | hT' <;> rw [hT'] <;>
      exact earlyStage_skip _ (by decide)
  have h6 : advancedSection p = ([], []) := by
    unfold advancedSection; rw [hu, hh]
    rcases hT with hT' | hT' <;> rcases hN with hN' | hN' <;> rw [hT', hN'] <;>
      exact advanced_skip _ _ _ _ _ (by decide)
  have h5 : t1bSection p =
      (if !(sizeGE3 p.tumour_size_cm || gradePoor p.grade ||
            p.lymphovascular_invasion.getD false) then
        (["Primary esophagectomy"], [d_t1b_low p.histology])
      else (["Neoadjuvant chemoradiation → esophagectomy"], [d_t1b_high])) := by
    unfold t1bSection; rw [hu, hh]
    rcases hT with hT' | hT' <;> rcases hN with hN' | hN' <;> rw [hT', hN'] <;>
      exact t1b_fire _ _ _ _ _ _ (by decide) (by decide)
  constructor
  · rintro ⟨hs, hg, hl⟩
    have h5' : t1bSection p =
        (["Primary esophagectomy"], [d_t1b_low p.histology]) := by
      rw [h5, hs, hg, hl]
      rfl
    have hsum : (recommend_plan p).summary = "Primary esophagectomy" := by
      refine summary_of_parts p _ (by decide) ?_
      unfold surgeryParts
      rw [h4, h5', h6, h8, h9]
      rfl
    rw [hsum]; decide
  · intro hhi
    have h5' : t1bSection p =
        (["Neoadjuvant chemoradiation → esophagectomy"], [d_t1b_high]) := by
      rw [h5]
      rcases hhi with hx | hx | hx <;> rw [hx] <;> simp
    have hsum : (recommend_plan p).summary =
        "Neoadjuvant chemoradiation → esophagectomy" := by
      refine summary_of_parts p _ (by decide) ?_
      unfold surgeryParts
      rw [h4, h5', h6, h8, h9]
      rfl
    rw [hsum]; decide

theorem c8_witness :
    strContains (recommend_plan ex8rec).summary "Primary esophagectomy" = true ∧
    strContains (recommend_plan ex8rec).summary "Neoadjuvant" = false :=
  ⟨(c8_early_resection ex8rec (Or.inl (by decide)) (Or.inr (by decide))
      (by decide) (by decide)).1 ⟨by decide, by decide, by decide⟩,
   by decide⟩

set_option maxRecDepth 8000 in
/-- Claim C6 counterexample: a record triggering both the T4b-TNM rule and
the invasion-feature rule (stage "T4BN1M0" with aortic encasement) receives
the TNM rule's sentence but NOT the invasion rule's sentence — the invasion
rule appends its sentence only when `unresectable` is not already set, so the
claim that every triggered rule appends exactly one sentence fails. -/
theorem c6_counterexample :
    strContains (recommend_plan c6rec).details "staged as T4b by TNM" = true ∧
    strContains (recommend_plan c6rec).details
      "Imaging shows invasion of critical adjacent structures" = false := by
  constructor
  · decide
  · decide

set_option maxHeartbeats 1000000 in
/-- Claim C6 (amended): the six resectability/fitness rules run in the fixed
source order and later rules always still evaluate, but the rationale is
guarded: the T4b-TNM, metastatic, comorbidity and surgical-candidate rules
each append exactly one sentence when their condition holds; the
invasion-feature rule always sets the flag but appends its sentence only
when the T4b-TNM rule has not already set `unresectable`; and the cervical
rule only triggers at all when `unresectable` is not already set and the
disease is non-metastatic. -/
theorem c6_rules_amended (T_upper M_upper tumour_location : String)
    (invasion_features comorbidities : List String) (surgical_candidate : Bool) :
    resect_fitness T_upper M_upper tumour_location invasion_features
        comorbidities surgical_candidate =
      (strContains T_upper "4B" ||
         invasion_features.any (fun f => t4b_like_flags.contains f) ||
         ((tumour_location == "cervical") &&
           !(strContains T_upper "4B" ||
             invasion_features.any (fun f => t4b_like_flags.contains f)) &&
           (M_upper == "" || M_upper == "M0")) ||
         (M_upper != "" && M_upper != "M0"),
       ["severe_pulm", "severe_card", "frailty", "ckd", "liver"].any
           (fun code => (comorbidities.map strLower).contains code) ||
         !surgical_candidate,
       tumour_location == "cervical",
       (if strContains T_upper "4B" then [s_t4b_tnm] else []) ++
       (if invasion_features.any (fun f => t4b_like_flags.contains f) &&
            !strContains T_upper "4B" then [s_t4b_inv] else []) ++
       (if (tumour_location == "cervical") &&
            !(strContains T_upper "4B" ||
              invasion_features.any (fun f => t4b_like_flags.contains f)) &&
            (M_upper == "" || M_upper == "M0") then [s_cervical] else []) ++
       (if M_upper != "" && M_upper != "M0" then [s_metastatic M_upper]
        else []) ++
       (if ["severe_pulm", "severe_card", "frailty", "ckd", "liver"].any
            (fun code => (comorbidities.map strLower).contains code) then
          [s_comorbid]
        else []) ++
       (if !surgical_candidate then [s_nocand] else [])) := by
  cases h1 : strContains T_upper "4B" <;>
  cases h2 : invasion_features.any (fun f => t4b_like_flags.contains f) <;>
  cases h3 : (tumour_location == "cervical") <;>
  cases h4 : (M_upper == "") <;>
  cases h5 : (M_upper == "M0") <;>
  cases h6 : ["severe_pulm", "severe_card", "frailty", "ckd", "liver"].any
      (fun code => (comorbidities.map strLower).contains code) <;>
  cases h7 : surgical_candidate <;>
    simp only [resect_fitness, h1, h2, h3, h4, h5, h6, h7, bne,
      Bool.not_true, Bool.not_false, Bool.true_and, Bool.false_and,
      Bool.and_true, Bool.and_false, Bool.or_true, Bool.or_false,
      Bool.true_or, Bool.false_or, eq_self_iff_true, Bool.false_eq_true,
      if_true, if_false, List.nil_append, List.append_nil]
